import Mathlib

/-!
Verification development for the idaes-pse repository slice.

Embedded artefacts (shallow embeddings, translated from the sources):
* `docs/Makefile` (second document): the `idaes-docker` bash script — a
  dispatcher over the commands `test|notebook|update|create|help|-h`
  wrapping docker, wget/curl and gzip invocations.
* the solver-interface Makefile and `Makefile.in`: build of the
  `cubic_roots.so` shared object, with flags driven by the `ASL_BUILD`
  and `BOOST_HEADER` environment variables.
* the CircleCI configuration: the ordered step list of the shared job.
* the Heater notebook's `make_control_volume` function.
-/

namespace IdaesDocker

/-- External commands the `idaes-docker` script can launch.  Command
substitutions (`$(...)`) count as commands too: they run a child process
and the script blocks on it. -/
inductive DCmd where
  | wgetHelp                               -- wget -h > /dev/null 2>&1
  | curlHelp                               -- curl -h > /dev/null 2>&1
  | download (getcmd : String) (url : String)  -- $getcmd ${url}/${filenm}
  | dockerImagesQ (ref : String)           -- docker images -q <ref>
  | dockerLoad (file : String)             -- docker load < $filenm
  | dockerRunTest                          -- docker run -it ... pytest
  | dockerRunNotebook                      -- docker run -p 8888:8888 -it ...
  | pythonVersion                          -- python -c "from idaes import ver; ..."
  | dockerBuild (tags : List String)       -- docker build . $tagopt
  | dockerSaveGzip (imgid : String) (file : String) -- docker save $imgid | gzip -c > $imgname
deriving DecidableEq, Repr

/-- The observable state accumulated while the script runs: printed
output, the external commands launched so far (in launch order), and the
exit status of the last command (`$?`). -/
structure SState where
  out : List String
  cmds : List DCmd
  last : Nat
deriving DecidableEq, Repr

/-- The environment the script runs against: exit statuses of external
commands, and the data the command substitutions / file tests observe. -/
structure Env where
  cmdStatus : DCmd → Nat       -- exit status of each external command
  imageCount : Nat             -- docker images -q idaes:idaes_pse | wc -l
  response : String            -- the `read response` input in check_image
  ver : String                 -- output of the python version detection
  fileExists : String → Bool   -- [[ -e file ]]
  imagesQ : String → String    -- docker images -q <ref> output
  imagesQAfterBuild : String → String  -- the same query, after docker build

/-- Result of running a script fragment: either the script called
`exit code` (terminating the whole script), or the fragment finished and
control continues with the resulting state. -/
inductive SRes where
  | exited (code : Nat) (s : SState)
  | ok (s : SState)
deriving DecidableEq, Repr

/-- Sequencing: an `exit` short-circuits everything after it. -/
def SRes.andThen (r : SRes) (f : SState → SRes) : SRes :=
  match r with
  | .exited c s => .exited c s
  | .ok s => f s

/-- `printf` of one format string (always succeeds, so `$?` becomes 0). -/
def emit (s : SState) (msg : String) : SState :=
  { s with out := s.out ++ [msg], last := 0 }

/-- Several consecutive `printf`s. -/
def emitAll (s : SState) (msgs : List String) : SState :=
  { s with out := s.out ++ msgs, last := 0 }

/-- Launch one external command and block until it finishes; its exit
status becomes `$?`. -/
def runC (env : Env) (s : SState) (c : DCmd) : SState :=
  { s with cmds := s.cmds ++ [c], last := env.cmdStatus c }

/-- The format strings printed by the `usage` function, in order. -/
def usageLines : List String :=
  [ "./idaes-docker COMMAND\n\n"
  , "User commands:\n"
  , "   help          Print this message\n"
  , "   test          Run the unit tests on the Docker image.\n"
  , "   notebook      Run a Jupyter notebook inside the Docker image.\n"
  , "   update        Get the latest version of the IDAES Docker image.\n"
  , "Developer commands:\n"
  , "   create         Build new Docker image (creates a .tgz file)\n" ]

/-- `function usage()`: print the usage message, then `exit 1`. -/
def usage (s : SState) : SRes :=
  .exited 1 (emitAll s usageLines)

/-- The format strings printed by `install_image_help`, in order. -/
def installImageHelpLines : List String :=
  [ "Command aborted.\n\nFor information on how to install and use\n"
  , "Docker with the IDAES PSE framework, see the installation guide at:\n"
  , "    https://idaes-pse.readthedocs.io/en/latest/install.html\n" ]

def IMAGE_REPO : String := "idaes"
def IMAGE_TAG : String := "idaes_pse"

/-- The fixed download location used by `install_image`. -/
def dlUrl : String := "https://s3.amazonaws.com/idaes/idaes-pse"

/-- The fixed archive file name used by `install_image`. -/
def dlFile : String := "idaes-pse-docker-latest.tgz"

/-- The tail of `install_image` after `$getcmd` has been selected:
run the download, abort on failure, otherwise `docker load`. -/
def installDownload (env : Env) (s : SState) (getcmd : String) : SRes :=
  let s := emit s "Downloading image..\n"
  let s := runC env s (.download getcmd (dlUrl ++ "/" ++ dlFile))
  if s.last ≠ 0 then
    .exited 1 (emit s "Download failed. Abort command.\n")
  else
    let s := emit s "Loading image..\n"
    .ok (runC env s (.dockerLoad dlFile))

/-- `function install_image()`: pick wget or curl (abort if neither is
available), download the archive, abort on download failure, else load
the image into docker. -/
def install_image (env : Env) (s : SState) : SRes :=
  let s := runC env s .wgetHelp
  if s.last = 0 then
    installDownload env s "wget"
  else
    let s := runC env s .curlHelp
    if s.last = 0 then
      installDownload env s ("curl -o " ++ dlFile)
    else
      .exited 1 (emit s "Could not find \x27curl\x27 or \x27wget\x27 command. Abort.\n")

/-- `function check_image()`: count matching images; when none is
present, offer to install, and on refusal print the help text and
`exit 1`. -/
def check_image (env : Env) (s : SState) : SRes :=
  let s := runC env s (.dockerImagesQ (IMAGE_REPO ++ ":" ++ IMAGE_TAG))
  if env.imageCount = 0 then
    let s := emit s ("Docker image " ++ IMAGE_REPO ++ ":" ++ IMAGE_TAG ++ " not found\n")
    let s := emit s "Download and install latest image now (y/N)? "
    if env.response ∈ (["y", "Y", "yes", "Yes", "YES"] : List String) then
      install_image env s
    else
      .exited 1 (emitAll s installImageHelpLines)
  else
    .ok s

/-- `function build_image()`: detect the package version, then skip work
already done: when the versioned archive file exists, nothing at all is
built or saved; when only the versioned image exists, the build is
skipped and the image is merely saved. -/
def build_image (env : Env) (extraTags : List String) (s : SState) : SRes :=
  let s := runC env s .pythonVersion
  let ver := env.ver
  let s := emit s ("Detected IDAES package version " ++ ver ++ "\n")
  let vertag := IMAGE_REPO ++ "/" ++ IMAGE_TAG ++ ":v" ++ ver
  let tagopt := vertag :: extraTags.map (fun t => IMAGE_REPO ++ "/" ++ IMAGE_TAG ++ ":" ++ t)
  let imgname := "idaes-pse-docker-" ++ ver ++ ".tgz"
  if env.fileExists imgname = false then
    let s := runC env s (.dockerImagesQ vertag)
    let imgid := env.imagesQ vertag
    let si :=
      if imgid = "" then
        let s := emit s "Building image...\n"
        let s := runC env s (.dockerBuild tagopt)
        let s := runC env s (.dockerImagesQ vertag)
        (s, env.imagesQAfterBuild vertag)
      else
        (emit s ("Nothing to do: image " ++ vertag ++ " already exists (" ++ imgid ++ ")\n"),
         imgid)
    let s := emit si.1 "Saving image..\n"
    let s := runC env s (.dockerSaveGzip si.2 imgname)
    .ok (emit s ("Done: " ++ imgname ++ " \n"))
  else
    .ok (emit s ("Nothing to do: image file " ++ imgname ++ " already exists\n"))

/-- The `[[ -z $1 ]]` guard (an empty first argument also takes it)
followed by the `case $1 in` dispatcher, run from state `s0` with first
argument `a` and remaining arguments `rest`. -/
def idaes_docker_case (env : Env) (a : String) (rest : List String) (s0 : SState) : SRes :=
  if a = "" then
    usage s0
  else if a = "test" then
    (check_image env s0).andThen fun s =>
      let s := emit s "Running tests in container...\n"
      .ok (runC env s .dockerRunTest)
  else if a = "notebook" then
    (check_image env s0).andThen fun s =>
      let s := emit s "Starting Jupyter...\n"
      .ok (runC env s .dockerRunNotebook)
  else if a = "update" then
    let s := emit s0 "Updating IDAES image...\n"
    install_image env s
  else if a = "create" then
    let s := emit s0 "Create new Docker image file\n"
    build_image env rest s
  else if a = "-h" ∨ a = "help" then
    usage s0
  else
    usage s0

/-- The whole script body: `[[ -z $1 ]]` (no argument, or an empty
first argument) prints usage; otherwise the `case` dispatcher runs. -/
def idaes_docker (env : Env) (args : List String) : SRes :=
  let s0 : SState := ⟨[], [], 0⟩
  match args with
  | [] => usage s0
  | a :: rest => idaes_docker_case env a rest s0

/-- Observable outcome of one invocation: the process exit code (an
explicit `exit`, or the status of the last command when the script falls
off the end) together with the final state. -/
def runScript (env : Env) (args : List String) : Nat × SState :=
  match idaes_docker env args with
  | .exited c s => (c, s)
  | .ok s => (s.last, s)

/-- Syntactic view of the script for the sequencing property: every
external-command occurrence in the script text, with whether the source
launches it in the background (a trailing `&`).  The script text contains
no `&`, so every entry is foreground. -/
structure ShellCmd where
  line : String
  background : Bool
deriving DecidableEq, Repr

/-- All external-command occurrences in the `idaes-docker` script, in
textual order of appearance. -/
def scriptCommands : List ShellCmd :=
  [ ⟨"docker images -q ${IMAGE_REPO}:${IMAGE_TAG} | wc -l", false⟩
  , ⟨"wget -h > /dev/null 2>&1", false⟩
  , ⟨"curl -h > /dev/null 2>&1", false⟩
  , ⟨"$getcmd ${url}/${filenm}", false⟩
  , ⟨"docker load < $filenm", false⟩
  , ⟨"python -c \"from idaes import ver; print(ver.__version__, end=)\"", false⟩
  , ⟨"docker images -q $vertag", false⟩
  , ⟨"docker build . $tagopt", false⟩
  , ⟨"docker images -q $vertag", false⟩
  , ⟨"docker save $imgid | gzip -c > $imgname", false⟩
  , ⟨"docker run -it idaes/idaes_jupyterhub /bin/bash -c \"cd /home/idaes && pytest\"", false⟩
  , ⟨"docker run -p 8888:8888 -it idaes/idaes_jupyterhub", false⟩ ]

end IdaesDocker

namespace SolverBuild

/-- `Makefile.in`: `ASL=$(ASL_BUILD)` — the ASL make variable is the
value of the `ASL_BUILD` environment variable (empty when unset). -/
def ASL (aslBuild : String) : String := aslBuild

/-- `Makefile.in`: `BOOST=$(BOOST_HEADER)`. -/
def BOOST (boostHeader : String) : String := boostHeader

/-- The solver Makefile's `CFLAGS`: `ifeq ($(ASL),)` selects the flag
set without the include path. -/
def CFLAGS (asl : String) : List String :=
  if asl = "" then ["-Wall", "-Wextra", "-O3"]
  else ["-Wall", "-Wextra", "-O3", "-I" ++ asl]

/-- `LDFLAGS = -shared -lm`. -/
def LDFLAGS : List String := ["-shared", "-lm"]

/-- The argument list of the compile recipe
`$(CC) -c $(CFLAGS) -fPIC cubic_roots.c -o cubic_roots.o`.
The recipe never references `$(BOOST)`, so `boostHeader` does not occur
in the result. -/
def compileArgs (aslBuild : String) (boostHeader : String) : List String :=
  "-c" :: CFLAGS (ASL aslBuild) ++ ["-fPIC", "cubic_roots.c", "-o", "cubic_roots.o"]

/-- The argument list of the link recipe
`$(CC) $(LDFLAGS) cubic_roots.o -o cubic_roots.so`. -/
def linkArgs : List String :=
  LDFLAGS ++ ["cubic_roots.o", "-o", "cubic_roots.so"]

/-- Modification times of the three files the Makefile is about; `none`
means the file does not exist.  `cubic_roots.c` is a source file and is
assumed present. -/
structure SolverFiles where
  cTime : Nat
  oTime : Option Nat
  soTime : Option Nat
deriving DecidableEq, Repr

/-- Commands a `make` run can execute. -/
inductive BuildCmd where
  | compile (args : List String)
  | link (args : List String)
deriving DecidableEq, Repr

/-- Make's staleness test for a target with one prerequisite: remade when
the target is missing or strictly older than the prerequisite. -/
def outOfDate : Option Nat → Nat → Bool
  | Option.none, _ => true
  | some t, p => decide (t < p)

/-- Running `make` on the default target `ALL` (the first rule of the
Makefile; the included `Makefile.in` defines no rules).  `ALL` depends on
`cubic_roots.so`, which depends on `cubic_roots.o`, which depends on
`cubic_roots.c`.  A target is remade when a prerequisite was just remade
or is newer than the target; remade files get mtime `now`. -/
def make_ALL (aslBuild : String) (boostHeader : String)
    (f : SolverFiles) (now : Nat) : SolverFiles × List BuildCmd :=
  let oRebuild := outOfDate f.oTime f.cTime
  let oTime1 := if oRebuild then some now else f.oTime
  let cs := if oRebuild then [BuildCmd.compile (compileArgs aslBuild boostHeader)] else []
  let soRebuild := oRebuild || outOfDate f.soTime (f.oTime.getD 0)
  if soRebuild then
    ({ f with oTime := oTime1, soTime := some now }, cs ++ [BuildCmd.link linkArgs])
  else
    ({ f with oTime := oTime1 }, cs)

end SolverBuild

namespace CircleCI

/-- The step list of the shared CircleCI job, in the order of the YAML
`steps` sequence. -/
def sharedSteps : List String :=
  [ "checkout"
  , "./install-solvers.sh"
  , "sudo pip install pip==18.0.0"
  , "sudo pip install -qr requirements.txt"
  , "pyomo --version"
  , "sudo python setup.py -q install"
  , "cd docs && make html"
  , "pytest docs idaes -m \"not nocircleci\""
  , "coverage report"
  , "coveralls" ]

/-- Position of a step in the shared job's step list. -/
def stepIndex (s : String) : Nat := sharedSteps.findIdx (fun t => t = s)

/-- Modelled from the spec: the CI executor itself is not part of the
repository sources; per the spec, the YAML pipeline invokes its commands
in fixed sequence and non-zero process exit codes halt the pipeline.
`runSteps status l` is the list of steps that actually run: steps run in
listed order and the pipeline stops right after the first step whose
exit status is non-zero. -/
def runSteps (status : String → Nat) : List String → List String
  | [] => []
  | a :: l => if status a = 0 then a :: runSteps status l else [a]

end CircleCI

namespace HeaterNotebook

/-- Python values as far as the notebook's checks observe them: the
checks are identity comparisons against `False`, so the model only needs
booleans, `None` and a catch-all for other objects. -/
inductive PyVal where
  | vbool (b : Bool)
  | vnone
  | vother (id : Nat)
deriving DecidableEq, Repr

/-- The configuration fields `make_control_volume` reads. -/
structure CVConfig where
  dynamic : PyVal
  has_holdup : PyVal
  property_package : Nat
  property_package_args : List (String × PyVal)
  has_phase_equilibrium : PyVal
  material_balance_type : Nat
deriving DecidableEq, Repr

/-- The state of a `ControlVolume0DBlock` after construction and the
`add_*` calls `make_control_volume` performs on it. -/
structure ControlVolume0D where
  property_package : Nat
  property_package_args : List (String × PyVal)
  state_blocks_phase_equilibrium : Option PyVal := Option.none
  material_balances : Option (Nat × PyVal) := Option.none
  enthalpy_balances : Option (Bool × Bool × Bool) := Option.none
  pressure_balances : Option Bool := Option.none
deriving DecidableEq, Repr

/-- A unit model as `make_control_volume` touches it: its named
attributes. -/
structure PyUnit where
  attrs : List (String × ControlVolume0D)
deriving DecidableEq, Repr

/-- The control volume as fully built by `make_control_volume` when no
exception is raised: constructor arguments, then `add_state_blocks`,
`add_material_balances`,
`add_total_enthalpy_balances(has_heat_of_reaction=False,
has_heat_transfer=True, has_work_transfer=False)` and
`add_total_pressure_balances(has_pressure_change=False)`. -/
def builtControlVolume (config : CVConfig) : ControlVolume0D :=
  { property_package := config.property_package
  , property_package_args := config.property_package_args
  , state_blocks_phase_equilibrium := some config.has_phase_equilibrium
  , material_balances := some (config.material_balance_type, config.has_phase_equilibrium)
  , enthalpy_balances := some (false, true, false)
  , pressure_balances := some false }

/-- The notebook's `make_control_volume(unit, name, config)`.  The two
`raise ValueError` guards run before the `ControlVolume0DBlock`
constructor and before `setattr`, so on error the unit is returned to
the caller by the exception untouched (`Except.error` carries no unit). -/
def make_control_volume (unit : PyUnit) (name : String) (config : CVConfig) :
    Except String PyUnit :=
  if config.dynamic ≠ PyVal.vbool false then
    Except.error "IdealGasIsentropcCompressor does not support dynamics"
  else if config.has_holdup ≠ PyVal.vbool false then
    Except.error "IdealGasIsentropcCompressor does not support holdup"
  else
    Except.ok { unit with attrs := (name, builtControlVolume config) :: unit.attrs }

end HeaterNotebook

section Theorems

open IdaesDocker SolverBuild CircleCI HeaterNotebook

/-- C5 counterexample: the claim says setting `BOOST_HEADER` adds that
path to the header search path used for compilation, but the compile
recipe never references `$(BOOST)`: with `BOOST_HEADER=/opt/boost` the
compiler argument list is identical to the one with `BOOST_HEADER`
unset, and contains no `-I/opt/boost`. -/
theorem boost_header_ignored_by_compile :
    compileArgs "" "/opt/boost" = compileArgs "" ""
      ∧ ("-I" ++ "/opt/boost") ∉ compileArgs "" "/opt/boost" := by
  refine ⟨rfl, ?_⟩
  decide

/-- C5 (amended): `ASL=$(ASL_BUILD)` drives the include path: when
`ASL_BUILD` is non-empty the compile arguments contain `-I$(ASL_BUILD)`,
and when it is empty they contain no `-I` option; `Makefile.in` does set
`BOOST=$(BOOST_HEADER)`, but the cubic_roots compile recipe never uses
it, so `BOOST_HEADER` has no effect on the arguments. -/
theorem asl_build_controls_include_path (aslBuild boostHeader : String) :
    (aslBuild ≠ "" → ("-I" ++ aslBuild) ∈ compileArgs aslBuild boostHeader)
      ∧ (aslBuild = "" →
          ∀ fl ∈ compileArgs aslBuild boostHeader, fl.data.take 2 ≠ ['-', 'I'])
      ∧ compileArgs aslBuild boostHeader = compileArgs aslBuild "" := by
  refine ⟨?_, ?_, rfl⟩
  · intro h
    simp [compileArgs, CFLAGS, ASL, h]
  · intro h
    subst h
    have he : compileArgs "" boostHeader = compileArgs "" "" := rfl
    rw [he]
    decide

/-- Witness for the amended C5 theorem at concrete inputs. -/
theorem asl_build_controls_include_path_witness :
    ("-I" ++ "/opt/asl") ∈ compileArgs "/opt/asl" "/b"
      ∧ ∀ fl ∈ compileArgs "" "/b", fl.data.take 2 ≠ ['-', 'I'] :=
  ⟨(asl_build_controls_include_path "/opt/asl" "/b").1 (by decide),
   (asl_build_controls_include_path "" "/b").2.1 rfl⟩

/-- C6: `make` on the default target `ALL` (the first rule; the included
`Makefile.in` contributes no rules) builds `cubic_roots.so` from a clean
tree by compiling `cubic_roots.c` with `-fPIC` (and `-Wall -Wextra -O3`)
and then linking with `-shared -lm`; a compile is issued exactly when
`cubic_roots.o` is missing or older than `cubic_roots.c`, and a link
exactly when the object was remade or `cubic_roots.so` is missing or
older than the existing object. -/
theorem make_all_builds_cubic_roots_so
    (aslBuild boostHeader : String) (cT now : Nat) (f : SolverFiles) :
    (make_ALL aslBuild boostHeader ⟨cT, Option.none, Option.none⟩ now
        = (⟨cT, some now, some now⟩,
           [BuildCmd.compile (compileArgs aslBuild boostHeader),
            BuildCmd.link linkArgs]))
      ∧ ("-fPIC" ∈ compileArgs aslBuild boostHeader
         ∧ "-Wall" ∈ compileArgs aslBuild boostHeader
         ∧ "-Wextra" ∈ compileArgs aslBuild boostHeader
         ∧ "-O3" ∈ compileArgs aslBuild boostHeader
         ∧ "-shared" ∈ linkArgs ∧ "-lm" ∈ linkArgs)
      ∧ (BuildCmd.compile (compileArgs aslBuild boostHeader)
            ∈ (make_ALL aslBuild boostHeader f now).2
          ↔ outOfDate f.oTime f.cTime = true)
      ∧ (BuildCmd.link linkArgs ∈ (make_ALL aslBuild boostHeader f now).2
          ↔ (outOfDate f.oTime f.cTime = true
             ∨ outOfDate f.soTime (f.oTime.getD 0) = true)) := by
  refine ⟨?_, ?_, ?_, ?_⟩
  · simp [make_ALL, outOfDate]
  · by_cases h : aslBuild = "" <;>
      simp [compileArgs, CFLAGS, ASL, linkArgs, LDFLAGS, h]
  · unfold make_ALL
    rcases h1 : outOfDate f.oTime f.cTime <;>
      rcases h2 : outOfDate f.soTime (f.oTime.getD 0) <;>
      simp [h1, h2]
  · unfold make_ALL
    rcases h1 : outOfDate f.oTime f.cTime <;>
      rcases h2 : outOfDate f.soTime (f.oTime.getD 0) <;>
      simp [h1, h2]

/-- Helper for C4: `runSteps` runs exactly the first `i+1` steps when the
first `i` steps succeed and step `i` fails. -/
theorem runSteps_eq_take_of_first_failure (status : String → Nat) :
    ∀ (l : List String) (i : Nat), i < l.length →
      (∀ k, k < i → status (l.getD k "") = 0) →
      status (l.getD i "") ≠ 0 →
      runSteps status l = l.take (i + 1) := by
  intro l
  induction l with
  | nil => intro i hi; simp at hi
  | cons a t ih =>
    intro i hi hzero hfail
    cases i with
    | zero =>
      simp only [List.getD_cons_zero] at hfail
      simp [runSteps, hfail]
    | succ n =>
      have ha : status a = 0 := by
        have := hzero 0 (Nat.succ_pos n)
        simpa using this
      simp only [List.getD_cons_succ] at hfail
      have ht : runSteps status t = t.take (n + 1) := by
        refine ih n ?_ ?_ hfail
        · simpa using hi
        · intro k hk
          have := hzero (k + 1) (by omega)
          simpa using this
      simp [runSteps, ha, ht]

/-- C4: the shared CI job lists solver installation before requirements
installation, before package installation, before the documentation
build, before the tests, before coverage reporting; and (CI executor
modelled from the spec) a step exiting non-zero halts the pipeline, so
only the steps up to and including the failing one run. -/
theorem ci_shared_steps_order_and_halting :
    (stepIndex "./install-solvers.sh"
        < stepIndex "sudo pip install -qr requirements.txt"
      ∧ stepIndex "sudo pip install -qr requirements.txt"
        < stepIndex "sudo python setup.py -q install"
      ∧ stepIndex "sudo python setup.py -q install"
        < stepIndex "cd docs && make html"
      ∧ stepIndex "cd docs && make html"
        < stepIndex "pytest docs idaes -m \"not nocircleci\""
      ∧ stepIndex "pytest docs idaes -m \"not nocircleci\""
        < stepIndex "coverage report")
      ∧ ∀ (status : String → Nat) (i : Nat), i < sharedSteps.length →
          (∀ k, k < i → status (sharedSteps.getD k "") = 0) →
          status (sharedSteps.getD i "") ≠ 0 →
          runSteps status sharedSteps = sharedSteps.take (i + 1) := by
  constructor
  · decide
  · intro status i hi hzero hfail
    exact runSteps_eq_take_of_first_failure status sharedSteps i hi hzero hfail

/-- A status function under which the fifth step (`pyomo --version`)
fails and everything before it succeeds. -/
def failAtPyomo : String → Nat := fun s => if s = "pyomo --version" then 1 else 0

/-- Witness for C4: with the fifth step failing, exactly the first five
steps run. -/
theorem ci_shared_steps_order_and_halting_witness :
    runSteps failAtPyomo sharedSteps = sharedSteps.take 5 :=
  ci_shared_steps_order_and_halting.2 failAtPyomo 4 (by decide)
    (by intro k hk; interval_cases k <;> decide) (by decide)

/-- C8: `make_control_volume` raises `ValueError` whenever
`config.dynamic is not False`, or `config.dynamic is False` but
`config.has_holdup is not False` — in both cases before constructing the
`ControlVolume0DBlock` or setting any attribute, so the unit is unchanged
(the error carries no unit) — and with both `False` it raises nothing and
attaches the control volume under the given name. -/
theorem make_control_volume_guards
    (u : PyUnit) (name : String) (c1 c2 : CVConfig)
    (hbad : c1.dynamic ≠ PyVal.vbool false
            ∨ (c1.dynamic = PyVal.vbool false ∧ c1.has_holdup ≠ PyVal.vbool false))
    (hdyn : c2.dynamic = PyVal.vbool false)
    (hhold : c2.has_holdup = PyVal.vbool false) :
    (∃ msg, make_control_volume u name c1 = Except.error msg)
      ∧ make_control_volume u name c2 =
          Except.ok { u with attrs := (name, builtControlVolume c2) :: u.attrs } := by
  constructor
  · rcases hbad with h | ⟨h1, h2⟩
    · refine ⟨"IdealGasIsentropcCompressor does not support dynamics", ?_⟩
      simp [make_control_volume, h]
    · refine ⟨"IdealGasIsentropcCompressor does not support holdup", ?_⟩
      simp [make_control_volume, h1, h2]
  · simp [make_control_volume, hdyn, hhold]

/-- A configuration with dynamics enabled (rejected). -/
def cfgDynamic : CVConfig :=
  ⟨PyVal.vbool true, PyVal.vbool false, 0, [], PyVal.vbool false, 0⟩

/-- A configuration with dynamics and holdup both `False` (accepted). -/
def cfgStatic : CVConfig :=
  ⟨PyVal.vbool false, PyVal.vbool false, 7, [("Cp", PyVal.vnone)], PyVal.vbool false, 1⟩

/-- Witness for C8 at concrete configurations. -/
theorem make_control_volume_guards_witness :
    (∃ msg, make_control_volume ⟨[]⟩ "control_volume" cfgDynamic = Except.error msg)
      ∧ make_control_volume ⟨[]⟩ "control_volume" cfgStatic =
          Except.ok { attrs := [("control_volume", builtControlVolume cfgStatic)] } :=
  make_control_volume_guards ⟨[]⟩ "control_volume" cfgDynamic cfgStatic
    (Or.inl (by decide)) (by decide) (by decide)

/-- C1: with no first argument (or an empty one, which `[[ -z $1 ]]`
also catches), or a first argument outside
`{test, notebook, update, create, help, -h}`, the script prints exactly
the usage message, launches no external command, and exits with code 1. -/
theorem dispatcher_unknown_command_usage_exit_one
    (env : Env) (args : List String)
    (h : args.headD "" ∉ (["test", "notebook", "update", "create", "help", "-h"] :
          List String)) :
    runScript env args = (1, ⟨usageLines, [], 0⟩) := by
  match args with
  | [] =>
    simp [runScript, idaes_docker, usage, emitAll]
  | a :: rest =>
    simp only [List.headD_cons, List.mem_cons, List.not_mem_nil, not_or, or_false] at h
    obtain ⟨h1, h2, h3, h4, h5, h6⟩ := h
    by_cases h0 : a = ""
    · simp [runScript, idaes_docker, idaes_docker_case, h0, usage, emitAll]
    · simp [runScript, idaes_docker, idaes_docker_case, h0, h1, h2, h3, h4, h5, h6,
        usage, emitAll]

/-- A benign concrete environment for witnesses. -/
def baseEnv : Env :=
  { cmdStatus := fun _ => 0
  , imageCount := 1
  , response := "y"
  , ver := "1.0.0"
  , fileExists := fun _ => false
  , imagesQ := fun _ => ""
  , imagesQAfterBuild := fun _ => "deadbeef01" }

/-- Witness for C1 at the unknown command `frobnicate`. -/
theorem dispatcher_unknown_command_usage_exit_one_witness :
    runScript baseEnv ["frobnicate"] = (1, ⟨usageLines, [], 0⟩) :=
  dispatcher_unknown_command_usage_exit_one baseEnv ["frobnicate"] (by decide)

/-- C9: the dispatcher routes the documented commands `help` and `-h` to
`usage`, which always exits with code 1 after printing the usage
message — so even the valid `help` invocation exits non-zero, for every
environment and any trailing arguments. -/
theorem help_command_prints_usage_and_exits_one (env : Env) (rest : List String) :
    runScript env ("help" :: rest) = (1, ⟨usageLines, [], 0⟩)
      ∧ runScript env ("-h" :: rest) = (1, ⟨usageLines, [], 0⟩)
      ∧ ∀ s : SState, usage s = SRes.exited 1 (emitAll s usageLines) :=
  ⟨rfl, rfl, fun _ => rfl⟩

/-- C2: in `install_image`, whenever a download tool is found but the
download command exits non-zero, the script prints
`Download failed. Abort command.` and exits with code 1, and no
`docker load` is among the commands the function launched. -/
theorem install_image_download_failure_aborts
    (env : Env) (s : SState)
    (htool : env.cmdStatus DCmd.wgetHelp = 0 ∨ env.cmdStatus DCmd.curlHelp = 0)
    (hdl : ∀ g u, env.cmdStatus (DCmd.download g u) ≠ 0) :
    ∃ s1, install_image env s = SRes.exited 1 s1
      ∧ s1.out = s.out ++ ["Downloading image..\n", "Download failed. Abort command.\n"]
      ∧ ∀ f, DCmd.dockerLoad f ∉ s1.cmds.drop s.cmds.length := by
  by_cases hw : env.cmdStatus DCmd.wgetHelp = 0
  · refine ⟨{ out := s.out ++ ["Downloading image..\n", "Download failed. Abort command.\n"]
            , cmds := s.cmds ++ [DCmd.wgetHelp, DCmd.download "wget" (dlUrl ++ "/" ++ dlFile)]
            , last := 0 }, ?_, rfl, ?_⟩
    · simp [install_image, installDownload, runC, emit, hw, hdl]
    · intro f
      simp [List.drop_left]
  · have hc : env.cmdStatus DCmd.curlHelp = 0 := htool.resolve_left hw
    refine ⟨{ out := s.out ++ ["Downloading image..\n", "Download failed. Abort command.\n"]
            , cmds := s.cmds ++ [DCmd.wgetHelp, DCmd.curlHelp,
                DCmd.download ("curl -o " ++ dlFile) (dlUrl ++ "/" ++ dlFile)]
            , last := 0 }, ?_, rfl, ?_⟩
    · simp [install_image, installDownload, runC, emit, hw, hc, hdl]
    · intro f
      simp [List.drop_left]

/-- An environment in which wget is available but every download fails. -/
def envDownloadFails : Env :=
  { baseEnv with
    cmdStatus := fun c => match c with | DCmd.download _ _ => 1 | _ => 0 }

/-- Witness for C2: from the empty state, with failing downloads,
`install_image` aborts with code 1 and runs no `docker load`. -/
theorem install_image_download_failure_aborts_witness :
    ∃ s1, install_image envDownloadFails ⟨[], [], 0⟩ = SRes.exited 1 s1
      ∧ s1.out = ([] : List String) ++
          ["Downloading image..\n", "Download failed. Abort command.\n"]
      ∧ ∀ f, DCmd.dockerLoad f ∉ s1.cmds.drop ([] : List DCmd).length :=
  install_image_download_failure_aborts envDownloadFails ⟨[], [], 0⟩
    (Or.inl rfl) (fun _ _ => Nat.one_ne_zero)

/-- C7: no external-command occurrence in the `idaes-docker` script text
is launched in the background (there is no `&`-suffixed command), so in
the bash semantics each command completes before the next statement
runs — the sequential state threading of the `SRes` model. -/
theorem idaes_docker_no_background_commands :
    (scriptCommands.all fun c => !c.background) = true := by decide

/-- C10: `build_image` is idempotent over existing artefacts: when the
versioned archive file exists, only the version-detection command runs
and a `Nothing to do` message is printed — no `docker build`, no
`docker save`; when the archive is absent but the versioned image exists,
`docker build` is skipped and only `docker save` (the gzip pipeline)
runs. -/
theorem build_image_skips_existing_artifacts
    (env1 env2 : Env) (tags1 tags2 : List String) (s : SState)
    (h1 : env1.fileExists ("idaes-pse-docker-" ++ env1.ver ++ ".tgz") = true)
    (h2 : env2.fileExists ("idaes-pse-docker-" ++ env2.ver ++ ".tgz") = false)
    (h3 : env2.imagesQ (IMAGE_REPO ++ "/" ++ IMAGE_TAG ++ ":v" ++ env2.ver) ≠ "") :
    build_image env1 tags1 s = SRes.ok
        { out := s.out ++
            [ "Detected IDAES package version " ++ env1.ver ++ "\n"
            , "Nothing to do: image file " ++
                ("idaes-pse-docker-" ++ env1.ver ++ ".tgz") ++ " already exists\n" ]
        , cmds := s.cmds ++ [DCmd.pythonVersion]
        , last := 0 }
      ∧ build_image env2 tags2 s = SRes.ok
        { out := s.out ++
            [ "Detected IDAES package version " ++ env2.ver ++ "\n"
            , "Nothing to do: image " ++
                (IMAGE_REPO ++ "/" ++ IMAGE_TAG ++ ":v" ++ env2.ver) ++
                " already exists (" ++
                env2.imagesQ (IMAGE_REPO ++ "/" ++ IMAGE_TAG ++ ":v" ++ env2.ver) ++
                ")\n"
            , "Saving image..\n"
            , "Done: " ++ ("idaes-pse-docker-" ++ env2.ver ++ ".tgz") ++ " \n" ]
        , cmds := s.cmds ++
            [ DCmd.pythonVersion
            , DCmd.dockerImagesQ (IMAGE_REPO ++ "/" ++ IMAGE_TAG ++ ":v" ++ env2.ver)
            , DCmd.dockerSaveGzip
                (env2.imagesQ (IMAGE_REPO ++ "/" ++ IMAGE_TAG ++ ":v" ++ env2.ver))
                ("idaes-pse-docker-" ++ env2.ver ++ ".tgz") ]
        , last := 0 } := by
  constructor
  · simp [build_image, runC, emit, h1]
  · simp [build_image, runC, emit, h2, h3, List.append_assoc]

/-- An environment in which the versioned archive file already exists. -/
def envArchivePresent : Env := { baseEnv with fileExists := fun _ => true }

/-- An environment in which the archive is absent but the versioned
image already exists. -/
def envImagePresent : Env := { baseEnv with imagesQ := fun _ => "abc123def4" }

/-- Witness for C10 at concrete environments. -/
theorem build_image_skips_existing_artifacts_witness :
    build_image envArchivePresent [] ⟨[], [], 0⟩ = SRes.ok
        { out := ([] : List String) ++
            [ "Detected IDAES package version " ++ envArchivePresent.ver ++ "\n"
            , "Nothing to do: image file " ++
                ("idaes-pse-docker-" ++ envArchivePresent.ver ++ ".tgz") ++
                " already exists\n" ]
        , cmds := ([] : List DCmd) ++ [DCmd.pythonVersion]
        , last := 0 }
      ∧ build_image envImagePresent [] ⟨[], [], 0⟩ = SRes.ok
        { out := ([] : List String) ++
            [ "Detected IDAES package version " ++ envImagePresent.ver ++ "\n"
            , "Nothing to do: image " ++
                (IMAGE_REPO ++ "/" ++ IMAGE_TAG ++ ":v" ++ envImagePresent.ver) ++
                " already exists (" ++
                envImagePresent.imagesQ
                  (IMAGE_REPO ++ "/" ++ IMAGE_TAG ++ ":v" ++ envImagePresent.ver) ++
                ")\n"
            , "Saving image..\n"
            , "Done: " ++ ("idaes-pse-docker-" ++ envImagePresent.ver ++ ".tgz") ++ " \n" ]
        , cmds := ([] : List DCmd) ++
            [ DCmd.pythonVersion
            , DCmd.dockerImagesQ
                (IMAGE_REPO ++ "/" ++ IMAGE_TAG ++ ":v" ++ envImagePresent.ver)
            , DCmd.dockerSaveGzip
                (envImagePresent.imagesQ
                  (IMAGE_REPO ++ "/" ++ IMAGE_TAG ++ ":v" ++ envImagePresent.ver))
                ("idaes-pse-docker-" ++ envImagePresent.ver ++ ".tgz") ]
        , last := 0 } :=
  build_image_skips_existing_artifacts envArchivePresent envImagePresent [] [] ⟨[], [], 0⟩
    rfl rfl (by decide)

end Theorems
